import Mathlib

set_option maxRecDepth 5000

/-!
Verification development for the pymonetdb adaptive row-fetch engine.

The repository contains `pymonetdb/sql/connections.py` together with the test
suites `tests/test_policy.py` and `tests/test_resultset.py`.  The batch policy
itself (`pymonetdb/policy.py`) and the cursor implementation are not part of
the available sources; they are modelled from the specification and validated
against the behaviour pinned down by the test suite, which is part of the
sources.  Machine integers are modelled as `Int` (Python integers are
unbounded, so no wrap-around is involved).
-/

namespace PyMonetDB

/-- Modelled from the spec: the Batch Policy data model of section 3
(`pymonetdb/policy.py` is not among the sources).  `binary_level` and
`server_binexport_level` are the raw integers stored by
`Connection.__init__` and the handshake callback in
`pymonetdb/sql/connections.py`; the spec's boolean `binary_enabled` and
`server_supports_binary` are their truthiness, see below.
`lastBatchSize` is the per-result-set doubling state used by `batch_size`.
Defaults: `binary` defaults to 1 and `replysize` to 100
(docstring of `Connection.__init__`); the default prefetch budget is a
finite constant large enough to be inert in all scenarios of
`tests/test_policy.py` (the value 2500 is consistent with every observed
scenario). -/
structure BatchPolicy where
  binary_level : Int
  server_binexport_level : Int
  replysize : Int
  maxprefetch : Int
  lastBatchSize : Int
deriving DecidableEq, Repr

/-- Modelled from the spec: a freshly constructed policy. -/
def BatchPolicy.init : BatchPolicy :=
  { binary_level := 1, server_binexport_level := 0, replysize := 100,
    maxprefetch := 2500, lastBatchSize := 0 }

/-- The spec's `binary_enabled` flag: truthiness of the stored binary level
(Python truthiness of an integer is being nonzero). -/
def BatchPolicy.binary_prop (p : BatchPolicy) : Bool :=
  p.binary_level != 0

/-- The spec's `server_supports_binary` flag: truthiness of the stored server
binary export level. -/
def BatchPolicy.server_supports_binary (p : BatchPolicy) : Bool :=
  p.server_binexport_level != 0

/-- Setter used by `tests/test_policy.py` (`policy.binary = b`). -/
def BatchPolicy.set_binary_prop (p : BatchPolicy) (b : Bool) : BatchPolicy :=
  { p with binary_level := if b then 1 else 0 }

/-- Setter used by `tests/test_policy.py` (`policy.server_supports_binary = b`). -/
def BatchPolicy.set_server_supports_binary (p : BatchPolicy) (b : Bool) : BatchPolicy :=
  { p with server_binexport_level := if b then 1 else 0 }

/-- Modelled from the spec: the effective binary capability for a query,
`binary_enabled` combined with `server_supports_binary` (section 3). -/
def BatchPolicy.use_binary (p : BatchPolicy) : Bool :=
  p.binary_prop && p.server_supports_binary

/-- Modelled from the spec: the common rule of `handshake_reply_size` and
`new_query` (section 4.1): if `reply_size == -1` and the effective binary
capability is true, return the small constant 10, otherwise return
`reply_size` unchanged. -/
def BatchPolicy.new_reply_size (p : BatchPolicy) : Int :=
  if p.replysize == -1 && p.use_binary then 10 else p.replysize

/-- Modelled from the spec: value advertised to the server at session
establishment (section 4.1). -/
def BatchPolicy.handshake_reply_size (p : BatchPolicy) : Int :=
  p.new_reply_size

/-- Modelled from the spec: `clone()` produces an independent copy for a new
cursor (section 4.1).  With value semantics this is the identity copy. -/
def BatchPolicy.clone (p : BatchPolicy) : BatchPolicy := p

/-- Modelled from the spec: the page size reported to callers, equal to
`reply_size` if positive and the fixed default 100 otherwise (section 4.1). -/
def BatchPolicy.decide_arraysize (p : BatchPolicy) : Int :=
  if 0 < p.replysize then p.replysize else 100

/-- Modelled from the spec: the initial reply size requested for a new query,
computed with the same rule as `handshake_reply_size` (section 4.1).  It also
seeds the doubling state for the new result set.  Returns the requested size
together with the updated policy. -/
def BatchPolicy.new_query (p : BatchPolicy) : Int × BatchPolicy :=
  let s := p.new_reply_size
  (s, { p with lastBatchSize := s })

/-- Modelled from the spec: `batch_size` (section 4.1), called exactly on a
cache miss.  In the unlimited mode (`reply_size < 0`) the rest of the result
set is fetched in a single batch (sections 5 and 8: with unlimited reply size
the window is bounded by `row_count`).  Otherwise, in priority order: the
batch covers the immediate request (`requested_end - position`); the growth
target is double the previous batch; the target is rounded up so that the new
window boundary is aligned to the access stride (the size of the read that
triggered the miss, `existing_rows + (requested_end - position)`); with
`max_prefetch >= 0` the batch is capped at the immediate request plus the
prefetch budget; and the batch never exceeds `row_count - position`.
This definition is the growth-mode computation (`reply_size` not
unlimited); `batch_size` below dispatches to it. -/
def BatchPolicy.growth_batch (p : BatchPolicy)
    (existing_rows pos requested_end row_count : Int) : Int :=
  let needed := requested_end - pos
  let stride := existing_rows + needed
  let target := max (2 * p.lastBatchSize) needed
  let rounded := needed + ((target - needed + stride - 1) / stride) * stride
  let capped := if 0 ≤ p.maxprefetch then min rounded (needed + p.maxprefetch) else rounded
  min capped (row_count - pos)

/-- Modelled from the spec: `batch_size` proper, dispatching between the
unlimited mode and the growth mode and recording the batch just decided as
the doubling state for the next call. -/
def BatchPolicy.batch_size (p : BatchPolicy)
    (existing_rows pos requested_end row_count : Int) : Int × BatchPolicy :=
  if p.replysize < 0 then
    (row_count - pos, p)
  else
    let result := p.growth_batch existing_rows pos requested_end row_count
    (result, { p with lastBatchSize := result })

/-- Outcome record of `run_scenario` in `tests/test_policy.py`. -/
structure Scenario where
  handshake_reply_size : Int
  array_size : Int
  query_reply_size : Int
  intervals : List (Int × Int)
deriving DecidableEq, Repr

/-- Loop state of the fetch simulation in `run_scenario`
(`tests/test_policy.py`). -/
structure SimState where
  pol : BatchPolicy
  pos : Int
  cache_start : Int
  cache_end : Int
  intervals : List (Int × Int)
deriving DecidableEq, Repr

/-- One iteration of the fetch loop of `run_scenario`
(`tests/test_policy.py`, lines 48-67). -/
def scenario_step (rowcount : Int) (st : SimState) (size0 : Int) : SimState :=
  let size := if size0 < 0 then rowcount - st.pos else size0
  let requested_end := min (st.pos + size) rowcount
  let e := min requested_end st.cache_end
  let existing_rows := e - st.pos
  if e == requested_end then
    { st with pos := e }
  else
    let r := st.pol.batch_size existing_rows e requested_end rowcount
    { pol := r.2, pos := requested_end, cache_start := e, cache_end := e + r.1,
      intervals := st.intervals ++ [(e, e + r.1)] }

/-- The fetch loop of `run_scenario`: fold `scenario_step` over the fetch
pattern. -/
def scenario_loop (rowcount : Int) (st : SimState) (pattern : List Int) : SimState :=
  pattern.foldl (scenario_step rowcount) st

/-- Translation of `run_scenario` from `tests/test_policy.py`: simulate
connect, cursor creation, query execution and a sequence of fetches. -/
def run_scenario (rowcount : Int) (server_supports_binary : Bool)
    (pattern : List Int) (binary : Option Bool)
    (replysize maxprefetch : Option Int) : Scenario :=
  let policy := BatchPolicy.init
  let policy := match binary with
    | some b => policy.set_binary_prop b
    | none => policy
  let policy := match replysize with
    | some r => { policy with replysize := r }
    | none => policy
  let policy := match maxprefetch with
    | some m => { policy with maxprefetch := m }
    | none => policy
  let policy := policy.set_server_supports_binary server_supports_binary
  let hrs := policy.handshake_reply_size
  let pol := policy.clone
  let array_size := pol.decide_arraysize
  let nq := pol.new_query
  let cache_end := if 0 < nq.1 then nq.1 else rowcount
  let st0 : SimState := ⟨nq.2, 0, 0, cache_end, [(0, cache_end)]⟩
  let stF := scenario_loop rowcount st0 pattern
  ⟨hrs, array_size, nq.1, stF.intervals⟩

/-- Argument tuple of one `batch_size` call. -/
structure BatchCall where
  existing_rows : Int
  pos : Int
  requested_end : Int
  row_count : Int
deriving DecidableEq, Repr

/-- Caller-guaranteed ranges for a `batch_size` call made on a cache miss
(section 4.1: all inputs are caller-guaranteed in range; the cached prefix
taken before the miss is nonnegative). -/
def ValidCall (c : BatchCall) : Prop :=
  0 ≤ c.existing_rows ∧ 0 ≤ c.pos ∧ c.pos < c.requested_end ∧ c.requested_end ≤ c.row_count

instance (c : BatchCall) : Decidable (ValidCall c) := by
  unfold ValidCall
  infer_instance

/-- Run a sequence of `batch_size` calls against an evolving policy, pairing
each call with the batch size it returned. -/
def runCalls (p : BatchPolicy) : List BatchCall → List (BatchCall × Int)
  | [] => []
  | c :: cs =>
    let r := p.batch_size c.existing_rows c.pos c.requested_end c.row_count
    (c, r.1) :: runCalls r.2 cs

/-- Relation between consecutive (call, returned batch) pairs of a result
set's consumption: the later batch is at least as large and at least double
the earlier one, unless the remaining row count truncated it. -/
def GrowthStep (a b : BatchCall × Int) : Prop :=
  (a.2 ≤ b.2 ∧ 2 * a.2 ≤ b.2) ∨ b.2 = b.1.row_count - b.1.pos

/-- The all-text variant of a policy: both binary-capability fields cleared,
every other setting kept. -/
def text_only (p : BatchPolicy) : BatchPolicy :=
  { p with binary_level := 0, server_binexport_level := 0 }

/-- Operations a connection performs on its master policy over its lifetime:
changing the reply size setting (`Connection.set_replysize`) and cloning the
policy for a new cursor. -/
inductive PolicyOp where
  | setReplysize (r : Int)
  | newCursor
deriving DecidableEq, Repr

/-- A master policy together with the policies of the cursors cloned from it,
in creation order. -/
structure Sess where
  master : BatchPolicy
  cursors : List BatchPolicy
deriving DecidableEq, Repr

/-- Apply one policy operation to a session. -/
def applyOp (s : Sess) : PolicyOp → Sess
  | PolicyOp.setReplysize r => { s with master := { s.master with replysize := r } }
  | PolicyOp.newCursor => { s with cursors := s.cursors ++ [s.master.clone] }

/-- Apply a sequence of policy operations to a session. -/
def runOps (s : Sess) (ops : List PolicyOp) : Sess :=
  ops.foldl applyOp s

/-- Error kinds relevant to the embedded fragment (section 7). -/
inductive DBError where
  | contractViolation
  | connectionClosed
deriving DecidableEq, Repr

/-- Scroll modes of the DB-API cursor. -/
inductive ScrollMode where
  | absolute
  | relative
deriving DecidableEq, Repr

/-- Modelled from the spec: the cursor fetch-engine state visible to `scroll`
(section 3; the cursor implementation is not among the sources): absolute
position and the cached window over a result set of `row_count` rows. -/
structure Cursor where
  row_count : Int
  position : Int
  cache_start : Int
  cache_end : Int
deriving DecidableEq, Repr

/-- The position a `scroll` call attempts to establish: `offset` in absolute
mode, `position + offset` in relative mode (section 4.2). -/
def scrollTarget (c : Cursor) (offset : Int) (mode : ScrollMode) : Int :=
  match mode with
  | ScrollMode.absolute => offset
  | ScrollMode.relative => c.position + offset

/-- Modelled from the spec: `scroll(offset, mode)` (section 4.2, the cursor
implementation is not among the sources).  Sets the position to the target if
it lies inside `[0, row_count]`; otherwise fails with `ContractViolation` and
leaves the cursor unchanged.  The error (if any) is returned next to the
resulting cursor state. -/
def Cursor.scroll (c : Cursor) (offset : Int) (mode : ScrollMode) :
    Option DBError × Cursor :=
  let target := scrollTarget c offset mode
  if target < 0 ∨ c.row_count < target then
    (some DBError.contractViolation, c)
  else
    (none, { c with position := target })

/-- The `Connection` state relevant to the embedded fragment
(`pymonetdb/sql/connections.py`): the master policy, the DB-API settings, the
last reply size announced to the server, whether the mapi transport is open,
and the trace of protocol commands sent so far (`Connection.command` appends
to it; the mapi transport itself is external). -/
structure Connection where
  policy : BatchPolicy
  autocommit : Bool
  sizeheader : Bool
  current_replysize : Int
  mapi_open : Bool
  commands : List String
deriving DecidableEq, Repr

/-- `Connection.command`: raises when the connection is closed, otherwise
sends one command to the server (modelled as appending it to the trace). -/
def Connection.command (c : Connection) (cmd : String) : Except DBError Connection :=
  if c.mapi_open then Except.ok { c with commands := c.commands ++ [cmd] }
  else Except.error DBError.connectionClosed

/-- The policy-building fragment of `Connection.__init__` (lines 88-108):
stores the raw `binary` argument in the policy and applies the optional
`replysize`/`maxprefetch` arguments.  URL options and the mapi handshake are
external collaborators and are not modelled. -/
def connectionInit (binary : Int) (replysize maxprefetch : Option Int)
    (autocommit : Bool) : Connection :=
  let policy := { BatchPolicy.init with binary_level := binary }
  let policy := match replysize with
    | some r => { policy with replysize := r }
    | none => policy
  let policy := match maxprefetch with
    | some m => { policy with maxprefetch := m }
    | none => policy
  { policy := policy, autocommit := autocommit, sizeheader := true,
    current_replysize := 100, mapi_open := true, commands := [] }

/-- `Connection.get_replysize`. -/
def Connection.get_replysize (c : Connection) : Int :=
  c.policy.replysize

/-- `Connection.set_replysize`: updates only the policy's reply size. -/
def Connection.set_replysize (c : Connection) (replysize : Int) : Connection :=
  { c with policy := { c.policy with replysize := replysize } }

/-- `Connection.get_maxprefetch`. -/
def Connection.get_maxprefetch (c : Connection) : Int :=
  c.policy.maxprefetch

/-- `Connection.set_maxprefetch`: updates only the policy's prefetch budget. -/
def Connection.set_maxprefetch (c : Connection) (maxprefetch : Int) : Connection :=
  { c with policy := { c.policy with maxprefetch := maxprefetch } }

/-- `Connection.get_binary`: `1 if self._policy.binary_level else 0`. -/
def Connection.get_binary (c : Connection) : Int :=
  if c.policy.binary_level != 0 then 1 else 0

/-- `Connection.set_binary`: stores the boolean `binary > 0` (Python booleans
are the integers 1 and 0). -/
def Connection.set_binary (c : Connection) (binary : Int) : Connection :=
  { c with policy := { c.policy with binary_level := if 0 < binary then 1 else 0 } }

/-- `Connection._change_replysize`: sends `Xreply_size` to the server and
records the reply size now in effect there. -/
def Connection.change_replysize (c : Connection) (replysize : Int) :
    Except DBError Connection :=
  (c.command ("Xreply_size " ++ toString replysize)).map
    fun c2 => { c2 with current_replysize := replysize }

/-! ## Validation of the modelled policy against `tests/test_policy.py`

Each of the following checks reproduces one scenario of the test suite and
its expected outcome, pinning the modelled `batch_size` to the behaviour the
sources prescribe.  Long fetch patterns are evaluated in chunks of 100
reads (kernel evaluation of the fold is depth-limited), using the two
splitting lemmas below. -/

theorem scenario_loop_append (rowcount : Int) (st : SimState) (l1 l2 : List Int) :
    scenario_loop rowcount st (l1 ++ l2)
      = scenario_loop rowcount (scenario_loop rowcount st l1) l2 := by
  simp [scenario_loop, List.foldl_append]

theorem scenario_loop_replicate_add (rowcount : Int) (st : SimState) (m n : Nat) (x : Int) :
    scenario_loop rowcount st (List.replicate (m + n) x)
      = scenario_loop rowcount (scenario_loop rowcount st (List.replicate m x))
          (List.replicate n x) := by
  rw [List.replicate_add, scenario_loop_append]

example : run_scenario 1000 false [-1] none none none
    = ⟨100, 100, 100, [(0, 100), (100, 1000)]⟩ := by decide

example : run_scenario 1000 false (List.replicate 1000 1) none none none
    = ⟨100, 100, 100, [(0, 100), (100, 300), (300, 700), (700, 1000)]⟩ := by
  have h0 : run_scenario 1000 false (List.replicate 1000 1) none none none
      = ⟨100, 100, 100,
         (scenario_loop 1000 ⟨⟨1, 0, 100, 2500, 100⟩, 0, 0, 100, [(0, 100)]⟩
            (List.replicate 1000 1)).intervals⟩ := rfl
  rw [h0,
    show (1000 : Nat) = 100 + (100 + (100 + (100 + (100 + (100 + (100 + (100 + (100 + 100))))))))
      from by norm_num]
  rw [scenario_loop_replicate_add,
    show scenario_loop 1000 ⟨⟨1, 0, 100, 2500, 100⟩, 0, 0, 100, [(0, 100)]⟩
        (List.replicate 100 1)
      = ⟨⟨1, 0, 100, 2500, 100⟩, 100, 0, 100, [(0, 100)]⟩ from by decide]
  rw [scenario_loop_replicate_add,
    show scenario_loop 1000 ⟨⟨1, 0, 100, 2500, 100⟩, 100, 0, 100, [(0, 100)]⟩
        (List.replicate 100 1)
      = ⟨⟨1, 0, 100, 2500, 200⟩, 200, 100, 300, [(0, 100), (100, 300)]⟩ from by decide]
  rw [scenario_loop_replicate_add,
    show scenario_loop 1000 ⟨⟨1, 0, 100, 2500, 200⟩, 200, 100, 300, [(0, 100), (100, 300)]⟩
        (List.replicate 100 1)
      = ⟨⟨1, 0, 100, 2500, 200⟩, 300, 100, 300, [(0, 100), (100, 300)]⟩ from by decide]
  rw [scenario_loop_replicate_add,
    show scenario_loop 1000 ⟨⟨1, 0, 100, 2500, 200⟩, 300, 100, 300, [(0, 100), (100, 300)]⟩
        (List.replicate 100 1)
      = ⟨⟨1, 0, 100, 2500, 400⟩, 400, 300, 700,
         [(0, 100), (100, 300), (300, 700)]⟩ from by decide]
  rw [scenario_loop_replicate_add,
    show scenario_loop 1000 ⟨⟨1, 0, 100, 2500, 400⟩, 400, 300, 700,
          [(0, 100), (100, 300), (300, 700)]⟩ (List.replicate 100 1)
      = ⟨⟨1, 0, 100, 2500, 400⟩, 500, 300, 700,
         [(0, 100), (100, 300), (300, 700)]⟩ from by decide]
  rw [scenario_loop_replicate_add,
    show scenario_loop 1000 ⟨⟨1, 0, 100, 2500, 400⟩, 500, 300, 700,
          [(0, 100), (100, 300), (300, 700)]⟩ (List.replicate 100 1)
      = ⟨⟨1, 0, 100, 2500, 400⟩, 600, 300, 700,
         [(0, 100), (100, 300), (300, 700)]⟩ from by decide]
  rw [scenario_loop_replicate_add,
    show scenario_loop 1000 ⟨⟨1, 0, 100, 2500, 400⟩, 600, 300, 700,
          [(0, 100), (100, 300), (300, 700)]⟩ (List.replicate 100 1)
      = ⟨⟨1, 0, 100, 2500, 400⟩, 700, 300, 700,
         [(0, 100), (100, 300), (300, 700)]⟩ from by decide]
  rw [scenario_loop_replicate_add,
    show scenario_loop 1000 ⟨⟨1, 0, 100, 2500, 400⟩, 700, 300, 700,
          [(0, 100), (100, 300), (300, 700)]⟩ (List.replicate 100 1)
      = ⟨⟨1, 0, 100, 2500, 300⟩, 800, 700, 1000,
         [(0, 100), (100, 300), (300, 700), (700, 1000)]⟩ from by decide]
  rw [scenario_loop_replicate_add,
    show scenario_loop 1000 ⟨⟨1, 0, 100, 2500, 300⟩, 800, 700, 1000,
          [(0, 100), (100, 300), (300, 700), (700, 1000)]⟩ (List.replicate 100 1)
      = ⟨⟨1, 0, 100, 2500, 300⟩, 900, 700, 1000,
         [(0, 100), (100, 300), (300, 700), (700, 1000)]⟩ from by decide]
  decide

example : run_scenario 1000 false (List.replicate 200 50) none none none
    = ⟨100, 100, 100, [(0, 100), (100, 300), (300, 700), (700, 1000)]⟩ := by
  have h0 : run_scenario 1000 false (List.replicate 200 50) none none none
      = ⟨100, 100, 100,
         (scenario_loop 1000 ⟨⟨1, 0, 100, 2500, 100⟩, 0, 0, 100, [(0, 100)]⟩
            (List.replicate 200 50)).intervals⟩ := rfl
  rw [h0, show (200 : Nat) = 100 + 100 from by norm_num]
  rw [scenario_loop_replicate_add,
    show scenario_loop 1000 ⟨⟨1, 0, 100, 2500, 100⟩, 0, 0, 100, [(0, 100)]⟩
        (List.replicate 100 50)
      = ⟨⟨1, 0, 100, 2500, 300⟩, 1000, 700, 1000,
         [(0, 100), (100, 300), (300, 700), (700, 1000)]⟩ from by decide]
  decide

example : run_scenario 1000 false (List.replicate 8 40) none none none
    = ⟨100, 100, 100, [(0, 100), (100, 320)]⟩ := by decide

example : run_scenario 1000 false (List.replicate 100 75) none none none
    = ⟨100, 100, 100, [(0, 100), (100, 300), (300, 750), (750, 1000)]⟩ := by decide

example : run_scenario 1000 false [-1] none (some 20) none
    = ⟨20, 20, 20, [(0, 20), (20, 1000)]⟩ := by decide

example : run_scenario 1000 false (List.replicate 1000 1) none (some 20) none
    = ⟨20, 20, 20, [(0, 20), (20, 60), (60, 140), (140, 300), (300, 620), (620, 1000)]⟩ := by
  have h0 : run_scenario 1000 false (List.replicate 1000 1) none (some 20) none
      = ⟨20, 20, 20,
         (scenario_loop 1000 ⟨⟨1, 0, 20, 2500, 20⟩, 0, 0, 20, [(0, 20)]⟩
            (List.replicate 1000 1)).intervals⟩ := rfl
  rw [h0,
    show (1000 : Nat) = 100 + (100 + (100 + (100 + (100 + (100 + (100 + (100 + (100 + 100))))))))
      from by norm_num]
  rw [scenario_loop_replicate_add,
    show scenario_loop 1000 ⟨⟨1, 0, 20, 2500, 20⟩, 0, 0, 20, [(0, 20)]⟩
        (List.replicate 100 1)
      = ⟨⟨1, 0, 20, 2500, 80⟩, 100, 60, 140, [(0, 20), (20, 60), (60, 140)]⟩ from by decide]
  rw [scenario_loop_replicate_add,
    show scenario_loop 1000 ⟨⟨1, 0, 20, 2500, 80⟩, 100, 60, 140, [(0, 20), (20, 60), (60, 140)]⟩
        (List.replicate 100 1)
      = ⟨⟨1, 0, 20, 2500, 160⟩, 200, 140, 300,
         [(0, 20), (20, 60), (60, 140), (140, 300)]⟩ from by decide]
  rw [scenario_loop_replicate_add,
    show scenario_loop 1000 ⟨⟨1, 0, 20, 2500, 160⟩, 200, 140, 300,
          [(0, 20), (20, 60), (60, 140), (140, 300)]⟩ (List.replicate 100 1)
      = ⟨⟨1, 0, 20, 2500, 160⟩, 300, 140, 300,
         [(0, 20), (20, 60), (60, 140), (140, 300)]⟩ from by decide]
  rw [scenario_loop_replicate_add,
    show scenario_loop 1000 ⟨⟨1, 0, 20, 2500, 160⟩, 300, 140, 300,
          [(0, 20), (20, 60), (60, 140), (140, 300)]⟩ (List.replicate 100 1)
      = ⟨⟨1, 0, 20, 2500, 320⟩, 400, 300, 620,
         [(0, 20), (20, 60), (60, 140), (140, 300), (300, 620)]⟩ from by decide]
  rw [scenario_loop_replicate_add,
    show scenario_loop 1000 ⟨⟨1, 0, 20, 2500, 320⟩, 400, 300, 620,
          [(0, 20), (20, 60), (60, 140), (140, 300), (300, 620)]⟩ (List.replicate 100 1)
      = ⟨⟨1, 0, 20, 2500, 320⟩, 500, 300, 620,
         [(0, 20), (20, 60), (60, 140), (140, 300), (300, 620)]⟩ from by decide]
  rw [scenario_loop_replicate_add,
    show scenario_loop 1000 ⟨⟨1, 0, 20, 2500, 320⟩, 500, 300, 620,
          [(0, 20), (20, 60), (60, 140), (140, 300), (300, 620)]⟩ (List.replicate 100 1)
      = ⟨⟨1, 0, 20, 2500, 320⟩, 600, 300, 620,
         [(0, 20), (20, 60), (60, 140), (140, 300), (300, 620)]⟩ from by decide]
  rw [scenario_loop_replicate_add,
    show scenario_loop 1000 ⟨⟨1, 0, 20, 2500, 320⟩, 600, 300, 620,
          [(0, 20), (20, 60), (60, 140), (140, 300), (300, 620)]⟩ (List.replicate 100 1)
      = ⟨⟨1, 0, 20, 2500, 380⟩, 700, 620, 1000,
         [(0, 20), (20, 60), (60, 140), (140, 300), (300, 620), (620, 1000)]⟩ from by decide]
  rw [scenario_loop_replicate_add,
    show scenario_loop 1000 ⟨⟨1, 0, 20, 2500, 380⟩, 700, 620, 1000,
          [(0, 20), (20, 60), (60, 140), (140, 300), (300, 620), (620, 1000)]⟩
        (List.replicate 100 1)
      = ⟨⟨1, 0, 20, 2500, 380⟩, 800, 620, 1000,
         [(0, 20), (20, 60), (60, 140), (140, 300), (300, 620), (620, 1000)]⟩ from by decide]
  rw [scenario_loop_replicate_add,
    show scenario_loop 1000 ⟨⟨1, 0, 20, 2500, 380⟩, 800, 620, 1000,
          [(0, 20), (20, 60), (60, 140), (140, 300), (300, 620), (620, 1000)]⟩
        (List.replicate 100 1)
      = ⟨⟨1, 0, 20, 2500, 380⟩, 900, 620, 1000,
         [(0, 20), (20, 60), (60, 140), (140, 300), (300, 620), (620, 1000)]⟩ from by decide]
  decide

example : run_scenario 1000 false (List.replicate 100 100) none none (some 100)
    = ⟨100, 100, 100,
       [(0, 100), (100, 300), (300, 500), (500, 700), (700, 900), (900, 1000)]⟩ := by decide

example : run_scenario 1000 false (List.replicate 30 250) none none (some 100)
    = ⟨100, 100, 100, [(0, 100), (100, 350), (350, 600), (600, 850), (850, 1000)]⟩ := by decide

example : run_scenario 1000 false (List.replicate 30 250) none none (some 0)
    = ⟨100, 100, 100, [(0, 100), (100, 250), (250, 500), (500, 750), (750, 1000)]⟩ := by decide

example : run_scenario 1000 false (List.replicate 10 100) none (some (-1)) none
    = ⟨-1, 100, -1, [(0, 1000)]⟩ := by decide

example : run_scenario 1000 true (List.replicate 10 100) (some false) (some (-1)) none
    = ⟨-1, 100, -1, [(0, 1000)]⟩ := by decide

example : run_scenario 1000 true (List.replicate 10 100) none (some (-1)) none
    = ⟨10, 100, 10, [(0, 10), (10, 1000)]⟩ := by decide

example :
    scenario_loop 1000000 ⟨⟨1, 0, 100, -1, 100⟩, 0, 0, 100, [(0, 100)]⟩
      (List.replicate 300 100)
    = ⟨⟨1, 0, 100, -1, 25600⟩, 30000, 25500, 51100,
       [(0, 100), (100, 300), (300, 700), (700, 1500), (1500, 3100), (3100, 6300),
        (6300, 12700), (12700, 25500), (25500, 51100)]⟩ := by
  rw [show (300 : Nat) = 100 + (100 + 100) from by norm_num]
  rw [scenario_loop_replicate_add,
    show scenario_loop 1000000 ⟨⟨1, 0, 100, -1, 100⟩, 0, 0, 100, [(0, 100)]⟩
        (List.replicate 100 100)
      = ⟨⟨1, 0, 100, -1, 6400⟩, 10000, 6300, 12700,
         [(0, 100), (100, 300), (300, 700), (700, 1500), (1500, 3100), (3100, 6300),
          (6300, 12700)]⟩ from by decide]
  rw [scenario_loop_replicate_add,
    show scenario_loop 1000000 ⟨⟨1, 0, 100, -1, 6400⟩, 10000, 6300, 12700,
          [(0, 100), (100, 300), (300, 700), (700, 1500), (1500, 3100), (3100, 6300),
           (6300, 12700)]⟩ (List.replicate 100 100)
      = ⟨⟨1, 0, 100, -1, 12800⟩, 20000, 12700, 25500,
         [(0, 100), (100, 300), (300, 700), (700, 1500), (1500, 3100), (3100, 6300),
          (6300, 12700), (12700, 25500)]⟩ from by decide]
  decide

example :
    (run_scenario 1000000 false (List.replicate 100 100) none none (some (-1))).intervals
    = [(0, 100), (100, 300), (300, 700), (700, 1500), (1500, 3100), (3100, 6300),
       (6300, 12700)] := by decide

/-! ## Arithmetic helpers -/

/-- Rounding a nonnegative quantity up to a positive step is at least the
quantity. -/
theorem ceil_mul_self_ge (x s : Int) (_hx : 0 ≤ x) (hs : 0 < s) :
    x ≤ ((x + s - 1) / s) * s := by
  have h1 := Int.ediv_add_emod (x + s - 1) s
  have h2 : (x + s - 1) % s < s := Int.emod_lt_of_pos _ hs
  have h4 : ((x + s - 1) / s) * s = s * ((x + s - 1) / s) := mul_comm _ _
  linarith

/-- Rounding a nonnegative quantity up to a positive step is nonnegative. -/
theorem ceil_mul_self_nonneg (x s : Int) (hx : 0 ≤ x) (hs : 0 < s) :
    0 ≤ ((x + s - 1) / s) * s := by
  have h0 : (0:Int) ≤ x + s - 1 := by omega
  exact mul_nonneg (Int.ediv_nonneg h0 (le_of_lt hs)) (le_of_lt hs)

/-! ## Basic facts about `batch_size` -/

theorem batch_size_fst (p : BatchPolicy) (ex pos re rc : Int) :
    (p.batch_size ex pos re rc).1
      = if p.replysize < 0 then rc - pos else p.growth_batch ex pos re rc := by
  simp only [BatchPolicy.batch_size]
  split <;> rfl

theorem batch_size_snd (p : BatchPolicy) (ex pos re rc : Int) :
    (p.batch_size ex pos re rc).2
      = if p.replysize < 0 then p
        else { p with lastBatchSize := p.growth_batch ex pos re rc } := by
  simp only [BatchPolicy.batch_size]
  split <;> rfl

/-- The growth-mode batch never exceeds the remaining rows. -/
theorem growth_batch_le_remaining (p : BatchPolicy) (ex pos re rc : Int) :
    p.growth_batch ex pos re rc ≤ rc - pos := by
  simp only [BatchPolicy.growth_batch]
  exact min_le_right _ _

/-- The growth-mode batch always covers the immediate request. -/
theorem growth_batch_ge_needed (p : BatchPolicy) (ex pos re rc : Int)
    (hex : 0 ≤ ex) (h1 : pos < re) (h2 : re ≤ rc) :
    re - pos ≤ p.growth_batch ex pos re rc := by
  have hstride : (0:Int) < ex + (re - pos) := by omega
  have hx : (0:Int) ≤ max (2 * p.lastBatchSize) (re - pos) - (re - pos) := by
    have := le_max_right (2 * p.lastBatchSize) (re - pos)
    omega
  have hceil := ceil_mul_self_nonneg (max (2 * p.lastBatchSize) (re - pos) - (re - pos))
    (ex + (re - pos)) hx hstride
  simp only [BatchPolicy.growth_batch]
  by_cases hmp : (0:Int) ≤ p.maxprefetch
  · rw [if_pos hmp]
    refine le_min (le_min (by linarith) (by linarith)) (by linarith)
  · rw [if_neg hmp]
    refine le_min (by linarith) (by linarith)

/-- Without a prefetch budget the growth-mode batch at least doubles the
previous one, unless it is the truncated final batch. -/
theorem growth_batch_double_or_trunc (p : BatchPolicy) (ex pos re rc : Int)
    (hex : 0 ≤ ex) (h1 : pos < re) (hmp : p.maxprefetch < 0) :
    2 * p.lastBatchSize ≤ p.growth_batch ex pos re rc ∨
      p.growth_batch ex pos re rc = rc - pos := by
  have hstride : (0:Int) < ex + (re - pos) := by omega
  have hx : (0:Int) ≤ max (2 * p.lastBatchSize) (re - pos) - (re - pos) := by
    have := le_max_right (2 * p.lastBatchSize) (re - pos)
    omega
  have hceil := ceil_mul_self_ge (max (2 * p.lastBatchSize) (re - pos) - (re - pos))
    (ex + (re - pos)) hx hstride
  have htarget : 2 * p.lastBatchSize ≤ max (2 * p.lastBatchSize) (re - pos) :=
    le_max_left _ _
  simp only [BatchPolicy.growth_batch]
  rw [if_neg (by omega : ¬ (0:Int) ≤ p.maxprefetch)]
  set q := (max (2 * p.lastBatchSize) (re - pos) - (re - pos) + (ex + (re - pos)) - 1) /
      (ex + (re - pos)) * (ex + (re - pos)) with hq
  rcases min_cases (re - pos + q) (rc - pos) with ⟨heq, hle⟩ | ⟨heq, hlt⟩
  · left
    rw [heq]
    linarith
  · right
    rw [heq]

/-- With a nonnegative prefetch budget the growth-mode batch is capped at the
immediate request plus the budget. -/
theorem growth_batch_le_cap (p : BatchPolicy) (ex pos re rc : Int)
    (hmp : 0 ≤ p.maxprefetch) :
    p.growth_batch ex pos re rc ≤ (re - pos) + p.maxprefetch := by
  simp only [BatchPolicy.growth_batch]
  rw [if_pos hmp]
  exact le_trans (min_le_left _ _) (min_le_right _ _)

/-- Once the previous batch hit the cap for this request size, the growth-mode
batch reproduces it (up to the final truncation). -/
theorem growth_batch_steady (p : BatchPolicy) (ex pos re rc : Int)
    (hex : 0 ≤ ex) (h1 : pos < re) (hmp : 0 ≤ p.maxprefetch)
    (hlast : p.lastBatchSize = (re - pos) + p.maxprefetch) :
    p.growth_batch ex pos re rc = min ((re - pos) + p.maxprefetch) (rc - pos) := by
  have hstride : (0:Int) < ex + (re - pos) := by omega
  have hx : (0:Int) ≤ max (2 * p.lastBatchSize) (re - pos) - (re - pos) := by
    have := le_max_right (2 * p.lastBatchSize) (re - pos)
    omega
  have hceil := ceil_mul_self_ge (max (2 * p.lastBatchSize) (re - pos) - (re - pos))
    (ex + (re - pos)) hx hstride
  have htarget : 2 * p.lastBatchSize ≤ max (2 * p.lastBatchSize) (re - pos) :=
    le_max_left _ _
  simp only [BatchPolicy.growth_batch]
  rw [if_pos hmp]
  set q := (max (2 * p.lastBatchSize) (re - pos) - (re - pos) + (ex + (re - pos)) - 1) /
      (ex + (re - pos)) * (ex + (re - pos)) with hq
  have hcap : min (re - pos + q) (re - pos + p.maxprefetch) = (re - pos) + p.maxprefetch := by
    apply min_eq_right
    have : 2 * p.lastBatchSize = 2 * ((re - pos) + p.maxprefetch) := by rw [hlast]
    linarith
  rw [hcap]

/-! ## Claim C1 -/

/-- Claim C1: for every `batch_size` call made on a cache miss (with
`0 <= position <= requested_end <= row_count`, `position < requested_end`,
and a nonnegative count of rows already cached), the returned value is
strictly positive, `position` plus the returned value is at least
`requested_end`, and the returned value never exceeds
`row_count - position`. -/
theorem batch_size_miss_bounds (p : BatchPolicy) (ex pos re rc : Int)
    (hex : 0 ≤ ex) (h0 : 0 ≤ pos) (h1 : pos < re) (h2 : re ≤ rc) :
    0 < (p.batch_size ex pos re rc).1 ∧
      re ≤ pos + (p.batch_size ex pos re rc).1 ∧
      (p.batch_size ex pos re rc).1 ≤ rc - pos := by
  rw [batch_size_fst]
  by_cases hrs : p.replysize < 0
  · rw [if_pos hrs]
    omega
  · rw [if_neg hrs]
    have hge := growth_batch_ge_needed p ex pos re rc hex h1 h2
    have hle := growth_batch_le_remaining p ex pos re rc
    omega

theorem batch_size_miss_bounds_witness :
    0 < ((BatchPolicy.init.new_query).2.batch_size 0 100 101 1000).1 ∧
      101 ≤ 100 + ((BatchPolicy.init.new_query).2.batch_size 0 100 101 1000).1 ∧
      ((BatchPolicy.init.new_query).2.batch_size 0 100 101 1000).1 ≤ 1000 - 100 :=
  batch_size_miss_bounds (BatchPolicy.init.new_query).2 0 100 101 1000
    (by decide) (by decide) (by decide) (by decide)

/-! ## Claim C2 -/

/-- On a valid call with a negative (unbounded) prefetch budget and a
positive reply size, the policy after the call has the same settings, records
the returned batch, and the returned batch at least doubles the previous one
unless it is the truncated final batch. -/
theorem batch_size_growth_step (p : BatchPolicy) (c : BatchCall)
    (hv : ValidCall c) (hrs : 0 < p.replysize) :
    (p.batch_size c.existing_rows c.pos c.requested_end c.row_count).2
        = { p with lastBatchSize :=
              (p.batch_size c.existing_rows c.pos c.requested_end c.row_count).1 } ∧
      0 < (p.batch_size c.existing_rows c.pos c.requested_end c.row_count).1 ∧
      (p.maxprefetch < 0 →
        2 * p.lastBatchSize
            ≤ (p.batch_size c.existing_rows c.pos c.requested_end c.row_count).1 ∨
          (p.batch_size c.existing_rows c.pos c.requested_end c.row_count).1
            = c.row_count - c.pos) := by
  obtain ⟨hex, _h0, h1, h2⟩ := hv
  have hrsn : ¬ p.replysize < 0 := by omega
  have hfst := batch_size_fst p c.existing_rows c.pos c.requested_end c.row_count
  rw [if_neg hrsn] at hfst
  refine ⟨?_, ?_, ?_⟩
  · rw [batch_size_snd, if_neg hrsn, hfst]
  · have hge := growth_batch_ge_needed p c.existing_rows c.pos c.requested_end c.row_count
      hex h1 h2
    omega
  · intro hmp
    rw [hfst]
    exact growth_batch_double_or_trunc p c.existing_rows c.pos c.requested_end c.row_count
      hex h1 hmp

/-- Auxiliary induction for claim C2: the chain property, strengthened with
the relation between the incoming doubling state and the first result. -/
theorem runCalls_chain_aux (calls : List BatchCall) (p : BatchPolicy)
    (hmp : p.maxprefetch < 0) (hrs : 0 < p.replysize) (hlast : 0 ≤ p.lastBatchSize)
    (hv : ∀ c ∈ calls, ValidCall c) :
    List.Chain' GrowthStep (runCalls p calls) ∧
      ∀ x ∈ (runCalls p calls).head?,
        (p.lastBatchSize ≤ x.2 ∧ 2 * p.lastBatchSize ≤ x.2) ∨
          x.2 = x.1.row_count - x.1.pos := by
  induction calls generalizing p with
  | nil =>
    constructor
    · exact List.chain'_nil
    · intro x hx
      simp [runCalls] at hx
  | cons c cs ih =>
    have hvc : ValidCall c := hv c (by simp)
    have hvcs : ∀ d ∈ cs, ValidCall d := fun d hd => hv d (by simp [hd])
    have hstep := batch_size_growth_step p c hvc hrs
    have hrun : runCalls p (c :: cs)
        = (c, (p.batch_size c.existing_rows c.pos c.requested_end c.row_count).1)
            :: runCalls (p.batch_size c.existing_rows c.pos c.requested_end c.row_count).2 cs := by
      simp [runCalls]
    have hp2 := hstep.1
    have hihyp := ih (p.batch_size c.existing_rows c.pos c.requested_end c.row_count).2
      (by rw [hp2]; exact hmp) (by rw [hp2]; exact hrs)
      (by rw [hp2]; exact le_of_lt hstep.2.1) hvcs
    constructor
    · rw [hrun]
      rcases hl : runCalls (p.batch_size c.existing_rows c.pos c.requested_end c.row_count).2 cs
        with _ | ⟨y, l⟩
      · simp
      · rw [List.chain'_cons]
        constructor
        · have hy : y ∈ (runCalls
              (p.batch_size c.existing_rows c.pos c.requested_end c.row_count).2 cs).head? := by
            rw [hl]
            simp
          have := hihyp.2 y hy
          rw [hp2] at this
          rcases this with ⟨hmono, hdbl⟩ | htr

          · exact Or.inl ⟨by simpa using hmono, by simpa using hdbl⟩
          · exact Or.inr htr
        · have := hihyp.1
          rw [hl] at this
          exact this
    · intro x hx
      rw [hrun] at hx
      simp only [List.head?_cons, Option.mem_def, Option.some.injEq] at hx
      subst hx
      rcases hstep.2.2 hmp with hdbl | htr
      · exact Or.inl ⟨by omega, hdbl⟩
      · exact Or.inr htr

/-- Claim C2: for every policy with `max_prefetch < 0` and `reply_size > 0`
(and a nonnegative doubling state, as established by `new_query`), over any
sequence of valid `batch_size` calls for the same result set, consecutive
returned batch sizes are non-decreasing and each is at least double the
previous one, unless the remaining row count (`row_count - position`)
truncated the later one. -/
theorem runCalls_geometric_growth (p : BatchPolicy) (calls : List BatchCall)
    (hmp : p.maxprefetch < 0) (hrs : 0 < p.replysize) (hlast : 0 ≤ p.lastBatchSize)
    (hv : ∀ c ∈ calls, ValidCall c) :
    List.Chain' GrowthStep (runCalls p calls) :=
  (runCalls_chain_aux calls p hmp hrs hlast hv).1

theorem runCalls_geometric_growth_witness :
    List.Chain' GrowthStep
      (runCalls ⟨1, 0, 100, -1, 100⟩
        [⟨0, 100, 101, 1000⟩, ⟨0, 300, 301, 1000⟩, ⟨0, 700, 701, 1000⟩]) :=
  runCalls_geometric_growth ⟨1, 0, 100, -1, 100⟩
    [⟨0, 100, 101, 1000⟩, ⟨0, 300, 301, 1000⟩, ⟨0, 700, 701, 1000⟩]
    (by decide) (by decide) (by decide) (by decide)

/-! ## Claim C3 -/

/-- Claim C3 (counterexample): the claim quantifies over every policy with
`max_prefetch >= 0`, but in the unlimited mode (`reply_size == -1` with the
binary capability effective) `batch_size` fetches all remaining rows and
ignores the prefetch cap.  The policy below is reachable: `new_query` on a
fresh unlimited-reply-size policy with `max_prefetch = 0` returns 10 and
stores it as the doubling state.  The subsequent miss call returns 990, which
exceeds `stride + max_prefetch = 110 + 0` and is not equal to
`requested_end - position = 100`. -/
theorem maxprefetch_cap_counterexample :
    (⟨1, 1, -1, 0, 0⟩ : BatchPolicy).new_query = (10, ⟨1, 1, -1, 0, 10⟩) ∧
      (⟨1, 1, -1, 0, 10⟩ : BatchPolicy).maxprefetch = 0 ∧
      ValidCall ⟨10, 10, 110, 1000⟩ ∧
      ((⟨1, 1, -1, 0, 10⟩ : BatchPolicy).batch_size 10 10 110 1000).1 = 990 ∧
      ¬ ((⟨1, 1, -1, 0, 10⟩ : BatchPolicy).batch_size 10 10 110 1000).1
          ≤ (10 + (110 - 10)) + (⟨1, 1, -1, 0, 10⟩ : BatchPolicy).maxprefetch ∧
      ((⟨1, 1, -1, 0, 10⟩ : BatchPolicy).batch_size 10 10 110 1000).1 ≠ 110 - 10 := by
  decide

/-- Claim C3 (amended: restricted to policies in growth mode, i.e. with
`reply_size > 0` in addition to `max_prefetch >= 0`; the unlimited mode
`reply_size == -1` bypasses the cap): each `batch_size` result is capped by
the access stride plus `max_prefetch`; once the previous batch reached the
cap for this request size, the call reproduces exactly that capped value
(up to the final truncation by the remaining row count); and with
`max_prefetch == 0` the batch exactly covers the triggering request. -/
theorem maxprefetch_cap_amended (p : BatchPolicy) (ex pos re rc : Int)
    (hex : 0 ≤ ex) (h1 : pos < re) (h2 : re ≤ rc)
    (hmp : 0 ≤ p.maxprefetch) (hrs : 0 < p.replysize) :
    (p.batch_size ex pos re rc).1 ≤ (ex + (re - pos)) + p.maxprefetch ∧
      (p.lastBatchSize = (re - pos) + p.maxprefetch →
        (p.batch_size ex pos re rc).1 = min p.lastBatchSize (rc - pos)) ∧
      (p.maxprefetch = 0 → (p.batch_size ex pos re rc).1 = re - pos) := by
  have hrsn : ¬ p.replysize < 0 := by omega
  have hfst := batch_size_fst p ex pos re rc
  rw [if_neg hrsn] at hfst
  rw [hfst]
  refine ⟨?_, ?_, ?_⟩
  · have := growth_batch_le_cap p ex pos re rc hmp
    linarith
  · intro hl
    rw [growth_batch_steady p ex pos re rc hex h1 hmp hl, hl]
  · intro hz
    have hcap := growth_batch_le_cap p ex pos re rc hmp
    have hge := growth_batch_ge_needed p ex pos re rc hex h1 h2
    exact le_antisymm (by linarith) hge

theorem maxprefetch_cap_amended_witness :
    ((⟨1, 0, 100, 100, 200⟩ : BatchPolicy).batch_size 0 300 400 1000).1
        ≤ (0 + (400 - 300)) + (⟨1, 0, 100, 100, 200⟩ : BatchPolicy).maxprefetch ∧
      ((⟨1, 0, 100, 100, 200⟩ : BatchPolicy).lastBatchSize
            = (400 - 300) + (⟨1, 0, 100, 100, 200⟩ : BatchPolicy).maxprefetch →
        ((⟨1, 0, 100, 100, 200⟩ : BatchPolicy).batch_size 0 300 400 1000).1
          = min (⟨1, 0, 100, 100, 200⟩ : BatchPolicy).lastBatchSize (1000 - 300)) ∧
      ((⟨1, 0, 100, 100, 200⟩ : BatchPolicy).maxprefetch = 0 →
        ((⟨1, 0, 100, 100, 200⟩ : BatchPolicy).batch_size 0 300 400 1000).1 = 400 - 300) :=
  maxprefetch_cap_amended ⟨1, 0, 100, 100, 200⟩ 0 300 400 1000
    (by decide) (by decide) (by decide) (by decide) (by decide)

/-! ## Claim C4 -/

/-- Claim C4: `handshake_reply_size()` returns 10 exactly when
`reply_size == -1` and the effective binary capability (`binary_enabled` and
`server_supports_binary`) is true, and otherwise returns `reply_size`
unchanged, including `-1` verbatim when binary is not available. -/
theorem handshake_reply_size_rule (p : BatchPolicy) :
    p.handshake_reply_size
      = if p.replysize = -1 ∧ p.binary_prop = true ∧ p.server_supports_binary = true
        then 10 else p.replysize := by
  by_cases h1 : p.replysize = -1 <;>
    by_cases h2 : p.binary_prop = true <;>
    by_cases h3 : p.server_supports_binary = true <;>
    simp [BatchPolicy.handshake_reply_size, BatchPolicy.new_reply_size,
      BatchPolicy.use_binary, Bool.and_eq_true, beq_iff_eq, h1, h2, h3]

/-! ## Claim C5 -/

/-- Claim C5: `decide_array_size()` returns `reply_size` when it is positive
and exactly 100 when `reply_size == -1`, independently of `max_prefetch` and
of the binary capability flags. -/
theorem decide_arraysize_rule (p : BatchPolicy) :
    (0 < p.replysize → p.decide_arraysize = p.replysize) ∧
      (p.replysize = -1 → p.decide_arraysize = 100) ∧
      ∀ bl sbl mp lb : Int,
        (BatchPolicy.mk bl sbl p.replysize mp lb).decide_arraysize
          = p.decide_arraysize := by
  refine ⟨?_, ?_, ?_⟩
  · intro h
    simp [BatchPolicy.decide_arraysize, h]
  · intro h
    simp [BatchPolicy.decide_arraysize, h]
  · intro bl sbl mp lb
    rfl

theorem decide_arraysize_rule_witness :
    (⟨1, 0, 50, 2500, 0⟩ : BatchPolicy).decide_arraysize = 50 ∧
      (⟨1, 1, -1, -1, 0⟩ : BatchPolicy).decide_arraysize = 100 :=
  ⟨(decide_arraysize_rule ⟨1, 0, 50, 2500, 0⟩).1 (by decide),
   (decide_arraysize_rule ⟨1, 1, -1, -1, 0⟩).2.1 (by decide)⟩

/-! ## Claim C6 -/

/-- Whatever the connection later does to its master policy, the policies of
already-created cursors are a preserved prefix of the cursor list. -/
theorem runOps_cursors_prefix (ops : List PolicyOp) (s : Sess) :
    s.cursors <+: (runOps s ops).cursors := by
  induction ops generalizing s with
  | nil => exact List.prefix_rfl
  | cons op ops ih =>
    have h1 : s.cursors <+: (applyOp s op).cursors := by
      cases op with
      | setReplysize r => exact List.prefix_rfl
      | newCursor => exact ⟨[s.master.clone], rfl⟩
    exact List.IsPrefix.trans h1 (ih (applyOp s op))

/-- Claim C6: a cursor policy cloned from the master is untouched by every
later operation on the session, in particular by later `set_replysize`
calls, so the array size it reports is the one fixed at clone time (which
equals the master's array size at clone time, since `clone` copies the
policy). -/
theorem clone_arraysize_frozen (s : Sess) (ops : List PolicyOp) (i : Nat)
    (hi : i < s.cursors.length) :
    (runOps s ops).cursors[i]? = s.cursors[i]? ∧
      (s.master.clone).decide_arraysize = s.master.decide_arraysize := by
  refine ⟨?_, rfl⟩
  obtain ⟨t, ht⟩ := runOps_cursors_prefix ops s
  rw [← ht, List.getElem?_append, if_pos hi]

theorem clone_arraysize_frozen_witness :
    (runOps ⟨⟨1, 0, 50, 2500, 0⟩, [⟨1, 0, 50, 2500, 0⟩]⟩
        [PolicyOp.setReplysize (-1), PolicyOp.newCursor]).cursors[0]?
      = (⟨⟨1, 0, 50, 2500, 0⟩, [⟨1, 0, 50, 2500, 0⟩]⟩ : Sess).cursors[0]? ∧
      ((⟨⟨1, 0, 50, 2500, 0⟩, [⟨1, 0, 50, 2500, 0⟩]⟩ : Sess).master.clone).decide_arraysize
        = (⟨⟨1, 0, 50, 2500, 0⟩, [⟨1, 0, 50, 2500, 0⟩]⟩ : Sess).master.decide_arraysize :=
  clone_arraysize_frozen ⟨⟨1, 0, 50, 2500, 0⟩, [⟨1, 0, 50, 2500, 0⟩]⟩
    [PolicyOp.setReplysize (-1), PolicyOp.newCursor] 0 (by decide)

/-! ## Claim C7 -/

/-- Claim C7: when `server_supports_binary` is false or `binary_enabled` is
false, `handshake_reply_size()` and `new_query()` (both its returned size and
the doubling state it seeds) coincide with the all-text policy that has the
same `reply_size` and `max_prefetch` and both binary flags cleared. -/
theorem binary_off_text_equivalent (p : BatchPolicy)
    (h : p.binary_prop = false ∨ p.server_supports_binary = false) :
    p.handshake_reply_size = (text_only p).handshake_reply_size ∧
      (p.new_query).1 = ((text_only p).new_query).1 ∧
      (p.new_query).2.lastBatchSize = ((text_only p).new_query).2.lastBatchSize := by
  have hub : p.use_binary = false := by
    rcases h with h | h <;> simp [BatchPolicy.use_binary, h]
  have hub2 : (text_only p).use_binary = false := by
    simp [BatchPolicy.use_binary, text_only, BatchPolicy.binary_prop]
  have hnr : p.new_reply_size = p.replysize := by
    simp [BatchPolicy.new_reply_size, hub]
  have hnr2 : (text_only p).new_reply_size = p.replysize := by
    have hrs : (text_only p).replysize = p.replysize := rfl
    simp [BatchPolicy.new_reply_size, hub2, hrs]
  refine ⟨?_, ?_, ?_⟩ <;>
    simp [BatchPolicy.handshake_reply_size, BatchPolicy.new_query, hnr, hnr2]

theorem binary_off_text_equivalent_witness :
    (⟨3, 0, -1, 2500, 0⟩ : BatchPolicy).handshake_reply_size
        = (text_only ⟨3, 0, -1, 2500, 0⟩).handshake_reply_size ∧
      ((⟨3, 0, -1, 2500, 0⟩ : BatchPolicy).new_query).1
        = ((text_only ⟨3, 0, -1, 2500, 0⟩).new_query).1 ∧
      ((⟨3, 0, -1, 2500, 0⟩ : BatchPolicy).new_query).2.lastBatchSize
        = ((text_only ⟨3, 0, -1, 2500, 0⟩).new_query).2.lastBatchSize :=
  binary_off_text_equivalent ⟨3, 0, -1, 2500, 0⟩ (by decide)

/-! ## Claim C8 -/

/-- Claim C8: a `scroll` call whose resulting position would fall outside
`[0, row_count]` fails with `ContractViolation` and leaves the cursor state
(position and cache window) unchanged. -/
theorem scroll_out_of_range (c : Cursor) (offset : Int) (mode : ScrollMode)
    (h : scrollTarget c offset mode < 0 ∨ c.row_count < scrollTarget c offset mode) :
    c.scroll offset mode = (some DBError.contractViolation, c) := by
  simp only [Cursor.scroll]
  rw [if_pos h]

theorem scroll_out_of_range_witness :
    (⟨10, 0, 0, 5⟩ : Cursor).scroll 11 ScrollMode.absolute
      = (some DBError.contractViolation, ⟨10, 0, 0, 5⟩) :=
  scroll_out_of_range ⟨10, 0, 0, 5⟩ 11 ScrollMode.absolute (by decide)

/-! ## Claim C9 -/

/-- Claim C9: reading the `binary` property returns exactly 0 or 1, namely 1
precisely when the policy's stored binary level is truthy, even though the
constructor stores the raw integer passed as the `binary` argument; and
`set_binary(b)` stores the boolean `b > 0`, so any positive integer enables
binary and any non-positive integer disables it. -/
theorem connection_binary_property :
    (∀ c : Connection, c.get_binary = 0 ∨ c.get_binary = 1) ∧
      (∀ c : Connection, c.get_binary = 1 ↔ c.policy.binary_level ≠ 0) ∧
      (∀ (b : Int) (rs mp : Option Int) (ac : Bool),
        (connectionInit b rs mp ac).policy.binary_level = b) ∧
      (∀ (c : Connection) (b : Int),
        (c.set_binary b).policy.binary_level = if 0 < b then 1 else 0) ∧
      (∀ (c : Connection) (b : Int),
        (c.set_binary b).get_binary = if 0 < b then 1 else 0) := by
  refine ⟨?_, ?_, ?_, ?_, ?_⟩
  · intro c
    by_cases h : c.policy.binary_level = 0 <;> simp [Connection.get_binary, h]
  · intro c
    by_cases h : c.policy.binary_level = 0 <;> simp [Connection.get_binary, h]
  · intro b rs mp ac
    cases rs <;> cases mp <;> rfl
  · intro c b
    rfl
  · intro c b
    by_cases h : 0 < b <;> simp [Connection.set_binary, Connection.get_binary, h]

/-! ## Claim C10 -/

/-- Claim C10: setting the `replysize` (or `maxprefetch`) property only
updates the corresponding field of the connection's policy: it sends no
command to the server and leaves every other connection field, including the
server-advertised reply size `current_replysize`, unchanged; only
`change_replysize` (used during the handshake) sends `Xreply_size` and
updates `current_replysize`. -/
theorem replysize_setters_frame :
    (∀ (c : Connection) (r : Int),
        (c.set_replysize r).policy.replysize = r ∧
        (c.set_replysize r).policy.maxprefetch = c.policy.maxprefetch ∧
        (c.set_replysize r).policy.binary_level = c.policy.binary_level ∧
        (c.set_replysize r).policy.server_binexport_level
          = c.policy.server_binexport_level ∧
        (c.set_replysize r).policy.lastBatchSize = c.policy.lastBatchSize ∧
        (c.set_replysize r).commands = c.commands ∧
        (c.set_replysize r).current_replysize = c.current_replysize ∧
        (c.set_replysize r).autocommit = c.autocommit ∧
        (c.set_replysize r).sizeheader = c.sizeheader ∧
        (c.set_replysize r).mapi_open = c.mapi_open) ∧
      (∀ (c : Connection) (m : Int),
        (c.set_maxprefetch m).policy.maxprefetch = m ∧
        (c.set_maxprefetch m).policy.replysize = c.policy.replysize ∧
        (c.set_maxprefetch m).policy.binary_level = c.policy.binary_level ∧
        (c.set_maxprefetch m).policy.server_binexport_level
          = c.policy.server_binexport_level ∧
        (c.set_maxprefetch m).policy.lastBatchSize = c.policy.lastBatchSize ∧
        (c.set_maxprefetch m).commands = c.commands ∧
        (c.set_maxprefetch m).current_replysize = c.current_replysize ∧
        (c.set_maxprefetch m).autocommit = c.autocommit ∧
        (c.set_maxprefetch m).sizeheader = c.sizeheader ∧
        (c.set_maxprefetch m).mapi_open = c.mapi_open) ∧
      (∀ (c : Connection) (r : Int), c.mapi_open = true →
        c.change_replysize r
          = Except.ok { c with
              current_replysize := r,
              commands := c.commands ++ ["Xreply_size " ++ toString r] }) := by
  refine ⟨?_, ?_, ?_⟩
  · intro c r
    exact ⟨rfl, rfl, rfl, rfl, rfl, rfl, rfl, rfl, rfl, rfl⟩
  · intro c m
    exact ⟨rfl, rfl, rfl, rfl, rfl, rfl, rfl, rfl, rfl, rfl⟩
  · intro c r h
    simp [Connection.change_replysize, Connection.command, h, Except.map]

theorem replysize_setters_frame_witness :
    (connectionInit 1 none none false).change_replysize 77
      = Except.ok { connectionInit 1 none none false with
          current_replysize := 77,
          commands := (connectionInit 1 none none false).commands
            ++ ["Xreply_size " ++ toString (77 : Int)] } :=
  replysize_setters_frame.2.2 (connectionInit 1 none none false) 77 rfl

end PyMonetDB
